import Mathlib

/-!
Verification of the trade aggregation and ranking engine of `trade_analyzer.py`
(class `StockTradeAnalyzer`).  The Python code works on pandas DataFrames of
parsed CSV cells; we embed it shallowly: a cleaned DataFrame row becomes a
`Record`, machine floats become exact rationals (`ℚ`), `pandas.to_numeric`
parse results become `Option` values, and Python's `round(x, n)` (round half
to even) and `int(x)` (truncation toward zero) become `roundTo` and `qtrunc`.
-/

set_option maxRecDepth 100000

namespace TradeAnalyzer

/-- Python `round(x, 0)` on an exact rational: round half to even, as an
integer.  We take the floor and compare the fractional part with 1/2. -/
def roundHalfEven (x : ℚ) : ℤ :=
  let f := ⌊x⌋
  let r := x - (f : ℚ)
  if r < 1/2 then f else if 1/2 < r then f + 1 else if f % 2 = 0 then f else f + 1

/-- Python `round(x, n)` on an exact rational: scale by `10^n`, round half to
even, scale back. -/
def roundTo (n : ℕ) (x : ℚ) : ℚ := (roundHalfEven (x * (10:ℚ)^n) : ℚ) / (10:ℚ)^n

/-- Python `int(x)`: truncation toward zero. -/
def qtrunc (x : ℚ) : ℤ := if 0 ≤ x then ⌊x⌋ else ⌈x⌉

/-- One row of the cleaned DataFrame produced by `df2clean`: columns
券商 (broker), 價格 (price), 買進股數 (buy shares), 賣出股數 (sell shares).
After `df2clean` the price is numeric and the share counts are integers. -/
structure Record where
  broker : String
  price : ℚ
  buy : ℤ
  sell : ℤ
deriving DecidableEq, Repr

/-- One quadruple of raw cells (from either the left block, columns 1-4, or
the right block, columns 7-10) after `pd.to_numeric(..., errors="coerce")`:
an unparsable cell is `none` (NaN). -/
structure RawQuad where
  broker : String
  price : Option ℚ
  buy : Option ℤ
  sell : Option ℤ
deriving DecidableEq, Repr

/-- One row of the raw report table restricted to the two quadruples that
`df2clean` extracts (columns 1-4 on the left, 7-10 on the right). -/
structure RawRow where
  left : RawQuad
  right : RawQuad
deriving DecidableEq, Repr

/-- Coercion of one quadruple, `df2clean` lines 59-67: the price keeps its
parse result (NaN when unparsable), each share count defaults to 0 when
unparsable (`fillna(0)`), and `dropna()` then discards exactly the rows whose
price is NaN, since the volume columns can no longer be NaN. -/
def cleanQuad (q : RawQuad) : Option Record :=
  match q.price with
  | none => none
  | some p => some ⟨q.broker, p, q.buy.getD 0, q.sell.getD 0⟩

/-- The concatenation order of `pd.concat([left_df, right_df])`: all left
quadruples in original order, then all right quadruples in original order. -/
def rawQuads (rows : List RawRow) : List RawQuad :=
  rows.map RawRow.left ++ rows.map RawRow.right

/-- The Normalizer `df2clean`: reshape the two blocks into one long record
set, coerce the numeric columns, and drop the rows with an unparsable price. -/
def df2clean (rows : List RawRow) : List Record :=
  (rawQuads rows).filterMap cleanQuad

/-- The result of `csv2df`: the chosen header row and the raw data region. -/
structure RawTable where
  header : List String
  data : List (List String)
deriving DecidableEq, Repr

/-- The reader `csv2df` with its default arguments `header_row = 2` and
`data_start_row = 3`.  An empty row list returns `None`; when `rows[2]`
raises `IndexError` the surrounding `try` returns `None`; otherwise the
header is row 2 and the data region starts at row 3.  (The width check that
`pd.DataFrame` performs on ragged rows is outside this model.) -/
def csv2df (rows : List (List String)) : Option RawTable :=
  if rows.isEmpty then none
  else
    match rows.get? 2 with
    | none => none
    | some h => some ⟨h, rows.drop 3⟩

/-- The rows of the cleaned DataFrame belonging to one broker,
`df[df["券商"] == broker]`. -/
def broker_data (df : List Record) (b : String) : List Record :=
  df.filter (fun r => r.broker = b)

/-- The buy-side subset `broker_data[broker_data["買進股數"] > 0]`. -/
def buy_data (df : List Record) (b : String) : List Record :=
  (broker_data df b).filter (fun r => 0 < r.buy)

/-- The sell-side subset `broker_data[broker_data["賣出股數"] > 0]`. -/
def sell_data (df : List Record) (b : String) : List Record :=
  (broker_data df b).filter (fun r => 0 < r.sell)

/-- Line 80: `total_buy_shares = int(buy_data["買進股數"].sum()) if not
buy_data.empty else 0`; the sum of the empty list is 0 already. -/
def total_buy_shares (df : List Record) (b : String) : ℤ :=
  ((buy_data df b).map Record.buy).sum

/-- Line 90, the sell-side total. -/
def total_sell_shares (df : List Record) (b : String) : ℤ :=
  ((sell_data df b).map Record.sell).sum

/-- Lines 81-85: the weighted buy value `(price * 買進股數).sum()`, computed
only in the `total_buy_shares > 0` branch, else 0.0. -/
def total_buy_amount (df : List Record) (b : String) : ℚ :=
  if 0 < total_buy_shares df b then
    ((buy_data df b).map (fun r => r.price * (r.buy : ℚ))).sum
  else 0

/-- Lines 91-95, the sell-side weighted value. -/
def total_sell_amount (df : List Record) (b : String) : ℚ :=
  if 0 < total_sell_shares df b then
    ((sell_data df b).map (fun r => r.price * (r.sell : ℚ))).sum
  else 0

/-- Line 83: `avg_buy_price = round(total_buy_amount / total_buy_shares, 2)`
in the guarded branch, else 0.0. -/
def avg_buy_price (df : List Record) (b : String) : ℚ :=
  if 0 < total_buy_shares df b then
    roundTo 2 (total_buy_amount df b / (total_buy_shares df b : ℚ))
  else 0

/-- Line 93, the sell-side average. -/
def avg_sell_price (df : List Record) (b : String) : ℚ :=
  if 0 < total_sell_shares df b then
    roundTo 2 (total_sell_amount df b / (total_sell_shares df b : ℚ))
  else 0

/-- Line 99: `day_trade_volume = min(total_buy_shares, total_sell_shares)`. -/
def day_trade_volume (df : List Record) (b : String) : ℤ :=
  min (total_buy_shares df b) (total_sell_shares df b)

/-- Line 100: `profit_loss = (avg_sell_price - avg_buy_price) * 1000 if
day_trade_volume else 0.0`; Python truthiness of an integer is `≠ 0`. -/
def profit_loss (df : List Record) (b : String) : ℚ :=
  if day_trade_volume df b ≠ 0 then
    (avg_sell_price df b - avg_buy_price df b) * 1000
  else 0

/-- Line 103: `net_shares = total_buy_shares - total_sell_shares`. -/
def net_shares (df : List Record) (b : String) : ℤ :=
  total_buy_shares df b - total_sell_shares df b

/-- Lines 104-108: in the `net_shares > 0` branch
`net_buy_amount = (net_shares * avg_buy_price) / 10000 if avg_buy_price else
0.0`, else 0.0; Python truthiness of a float is `≠ 0`. -/
def net_buy_amount (df : List Record) (b : String) : ℚ :=
  if 0 < net_shares df b then
    if avg_buy_price df b ≠ 0 then (net_shares df b : ℚ) * avg_buy_price df b / 10000 else 0
  else 0

/-- Lines 104-109: in the `net_shares ≤ 0` branch
`net_sell_amount = (abs(net_shares) * avg_sell_price) / 10000 if
avg_sell_price else 0.0`, else 0.0. -/
def net_sell_amount (df : List Record) (b : String) : ℚ :=
  if 0 < net_shares df b then 0
  else
    if avg_sell_price df b ≠ 0 then (|net_shares df b| : ℚ) * avg_sell_price df b / 10000 else 0

/-- Line 124, the dictionary value `"當沖盈虧(萬)":
profit_loss*day_trade_volume/(10000*1000)`. -/
def day_trade_pnl (df : List Record) (b : String) : ℚ :=
  profit_loss df b * (day_trade_volume df b : ℚ) / (10000 * 1000)

/-- One row of the result DataFrame of `df2calculate` (lines 111-125), in
column order: 券商 `broker`, 買入(張) `buy_lots`, 買入價 `buy_price`,
賣出(張) `sell_lots`, 賣出價 `sell_price`, 當沖量(張) `day_trade_lots`,
總買進金額(萬) `total_buy_w`, 總賣出金額(萬) `total_sell_w`,
淨買入(張) `net_buy_lots`, 淨賣出(張) `net_sell_lots`,
淨買額(萬) `net_buy_value`, 淨賣額(萬) `net_sell_value`,
當沖盈虧(萬) `day_trade_pnl_w`.  The two net-value columns are `int`-valued
in the source (`int(round(..., 1))`), the rest of the numeric columns are
floats. -/
structure AggRow where
  broker : String
  buy_lots : ℚ
  buy_price : ℚ
  sell_lots : ℚ
  sell_price : ℚ
  day_trade_lots : ℚ
  total_buy_w : ℚ
  total_sell_w : ℚ
  net_buy_lots : ℚ
  net_sell_lots : ℚ
  net_buy_value : ℤ
  net_sell_value : ℤ
  day_trade_pnl_w : ℚ
deriving DecidableEq, Repr

instance : Inhabited AggRow := ⟨⟨"", 0, 0, 0, 0, 0, 0, 0, 0, 0, 0, 0, 0⟩⟩

/-- The dictionary built for one broker, `results[broker]`, lines 111-125. -/
def dictRow (df : List Record) (b : String) : AggRow :=
  ⟨b,
   roundTo 1 ((total_buy_shares df b : ℚ) / 1000),
   roundTo 1 (avg_buy_price df b),
   roundTo 1 ((total_sell_shares df b : ℚ) / 1000),
   roundTo 1 (avg_sell_price df b),
   roundTo 1 ((day_trade_volume df b : ℚ) / 1000),
   roundTo 1 (total_buy_amount df b / 10000),
   roundTo 1 (total_sell_amount df b / 10000),
   (if 0 < net_shares df b then roundTo 1 ((net_shares df b : ℚ) / 1000) else 0),
   (if net_shares df b < 0 then roundTo 1 ((|net_shares df b| : ℚ) / 1000) else 0),
   qtrunc (roundTo 1 (net_buy_amount df b)),
   qtrunc (roundTo 1 (net_sell_amount df b)),
   day_trade_pnl df b⟩

/-- The final `result_df.round(1)` (line 128): every float column is rounded
to one decimal place; the broker string and the two integer net-value
columns are unaffected. -/
def roundRow1 (r : AggRow) : AggRow :=
  ⟨r.broker,
   roundTo 1 r.buy_lots,
   roundTo 1 r.buy_price,
   roundTo 1 r.sell_lots,
   roundTo 1 r.sell_price,
   roundTo 1 r.day_trade_lots,
   roundTo 1 r.total_buy_w,
   roundTo 1 r.total_sell_w,
   roundTo 1 r.net_buy_lots,
   roundTo 1 r.net_sell_lots,
   r.net_buy_value,
   r.net_sell_value,
   roundTo 1 r.day_trade_pnl_w⟩

/-- The distinct brokers in first-appearance order, `df["券商"].unique()`. -/
def uniqueFirst (l : List String) : List String :=
  l.foldl (fun acc b => if b ∈ acc then acc else acc ++ [b]) []

/-- The column labels of the result DataFrame of `df2calculate`, in the
order the per-broker dictionary lists them. -/
def aggColumns : List String :=
  ["券商", "買入(張)", "買入價", "賣出(張)", "賣出價", "當沖量(張)",
   "總買進金額(萬)", "總賣出金額(萬)", "淨買入(張)", "淨賣出(張)",
   "淨買額(萬)", "淨賣額(萬)", "當沖盈虧(萬)"]

/-- A pandas DataFrame holding broker aggregates: its column labels and its
rows.  `pd.DataFrame.from_dict(results, orient="index")` takes its columns
from the keys of the row dictionaries, so a table built from zero brokers
has no columns at all — which is what makes the ranking views fail on it. -/
structure AggTable where
  cols : List String
  rows : List AggRow
deriving DecidableEq, Repr

/-- The Aggregator `df2calculate`: one dictionary per distinct broker, turned
into a DataFrame and rounded to one decimal place. -/
def df2calculate (df : List Record) : AggTable :=
  let brokers := uniqueFirst (df.map Record.broker)
  ⟨if brokers.isEmpty then [] else aggColumns,
   brokers.map (fun b => roundRow1 (dictRow df b))⟩

/-- The number of distinct brokers in a cleaned record set. -/
def numBrokers (df : List Record) : ℕ :=
  (uniqueFirst (df.map Record.broker)).length

/-- The 1-based rank index that each view assigns
(`out.index = out.index + 1`): row `i` (0-based) carries rank `i + 1`. -/
def addRanks {β : Type} (l : List β) : List (ℕ × β) :=
  (List.range' 1 l.length).zip l

/-- A row of the 買超 (top-buy) view, columns 券商, 買入(張), 買入價,
賣出(張), 賣出價, 淨買入(張), 淨買額(萬). -/
structure BuyRow where
  broker : String
  buy_lots : ℚ
  buy_price : ℚ
  sell_lots : ℚ
  sell_price : ℚ
  net_buy_lots : ℚ
  net_buy_value : ℤ
deriving DecidableEq, Repr

/-- A row of the 賣超 (top-sell) view, columns 券商, 買入(張), 買入價,
賣出(張), 賣出價, 淨賣出(張), 淨賣額(萬). -/
structure SellRow where
  broker : String
  buy_lots : ℚ
  buy_price : ℚ
  sell_lots : ℚ
  sell_price : ℚ
  net_sell_lots : ℚ
  net_sell_value : ℤ
deriving DecidableEq, Repr

/-- A row of the 當沖 (top-intraday) view, columns 券商, 買入(張), 買入價,
賣出(張), 賣出價, 當沖量(張), 當沖盈虧(萬). -/
structure DayRow where
  broker : String
  buy_lots : ℚ
  buy_price : ℚ
  sell_lots : ℚ
  sell_price : ℚ
  day_trade_lots : ℚ
  day_trade_pnl_w : ℚ
deriving DecidableEq, Repr

/-- Projection of the top-buy view with its final `round(1)` of the two
price columns (idempotent re-rounding in the source). -/
def projBuy (r : AggRow) : BuyRow :=
  ⟨r.broker, r.buy_lots, roundTo 1 r.buy_price, r.sell_lots, roundTo 1 r.sell_price,
   r.net_buy_lots, r.net_buy_value⟩

/-- Projection of the top-sell view. -/
def projSell (r : AggRow) : SellRow :=
  ⟨r.broker, r.buy_lots, roundTo 1 r.buy_price, r.sell_lots, roundTo 1 r.sell_price,
   r.net_sell_lots, r.net_sell_value⟩

/-- Projection of the top-intraday view, with its `round(1)` of the P&L
column (the one place where that rounding changes a value). -/
def projDay (r : AggRow) : DayRow :=
  ⟨r.broker, r.buy_lots, roundTo 1 r.buy_price, r.sell_lots, roundTo 1 r.sell_price,
   r.day_trade_lots, roundTo 1 r.day_trade_pnl_w⟩

/-- The columns each view projects to (`cols` lists in lines 134, 144, 154). -/
def buyViewCols : List String :=
  ["券商", "買入(張)", "買入價", "賣出(張)", "賣出價", "淨買入(張)", "淨買額(萬)"]

def sellViewCols : List String :=
  ["券商", "買入(張)", "買入價", "賣出(張)", "賣出價", "淨賣出(張)", "淨賣額(萬)"]

def dayViewCols : List String :=
  ["券商", "買入(張)", "買入價", "賣出(張)", "賣出價", "當沖量(張)", "當沖盈虧(萬)"]

/-- Shared shape of the three views: sort the aggregate rows descending by a
key column (`sort_values(..., ascending=False)`), keep the first `n`
(`head(n)`), project to the view columns and attach the 1-based rank. -/
def rankedRows {β : Type} (key : AggRow → ℚ) (proj : AggRow → β)
    (rows : List AggRow) (n : ℕ) : List (ℕ × β) :=
  addRanks (((List.insertionSort (fun a b => key b ≤ key a) rows).take n).map proj)

/-- `top20_buy` (lines 132-140).  `sort_values(by="淨買入(張)")` raises a
`KeyError` when the column is absent — which happens exactly when the
aggregate table was built from zero brokers — and the column projection
would likewise raise; both surface as `Except.error`. -/
def top20_buy (t : AggTable) (n : ℕ) : Except String (List (ℕ × BuyRow)) :=
  if t.cols.contains "淨買入(張)" then
    if buyViewCols.all t.cols.contains then
      Except.ok (rankedRows AggRow.net_buy_lots projBuy t.rows n)
    else Except.error "KeyError"
  else Except.error "KeyError"

/-- `top20_sell` (lines 142-150), sorted by 淨賣出(張). -/
def top20_sell (t : AggTable) (n : ℕ) : Except String (List (ℕ × SellRow)) :=
  if t.cols.contains "淨賣出(張)" then
    if sellViewCols.all t.cols.contains then
      Except.ok (rankedRows AggRow.net_sell_lots projSell t.rows n)
    else Except.error "KeyError"
  else Except.error "KeyError"

/-- `top20_intraday` (lines 152-164), sorted by 當沖量(張). -/
def top20_intraday (t : AggTable) (n : ℕ) : Except String (List (ℕ × DayRow)) :=
  if t.cols.contains "當沖量(張)" then
    if dayViewCols.all t.cols.contains then
      Except.ok (rankedRows AggRow.day_trade_lots projDay t.rows n)
    else Except.error "KeyError"
  else Except.error "KeyError"

/-- Stated from the spec for comparison (§4.2 step 2): the exact share-
weighted mean buy price, `sum(price × buy_shares) / total_buy_shares` when
`total_buy_shares > 0`, else 0 — with no rounding. -/
def spec_avg_buy_price (df : List Record) (b : String) : ℚ :=
  if 0 < total_buy_shares df b then
    ((buy_data df b).map (fun r => r.price * (r.buy : ℚ))).sum / (total_buy_shares df b : ℚ)
  else 0

/-- Stated from the spec for comparison: the exact weighted mean sell price. -/
def spec_avg_sell_price (df : List Record) (b : String) : ℚ :=
  if 0 < total_sell_shares df b then
    ((sell_data df b).map (fun r => r.price * (r.sell : ℚ))).sum / (total_sell_shares df b : ℚ)
  else 0

/-- Division that records a zero denominator instead of defaulting: used to
show that `df2calculate` never divides by zero.  A Python `x / y` with
`y == 0` would raise `ZeroDivisionError`; here it is `none`. -/
def divGuard (x y : ℚ) : Option ℚ :=
  if y = 0 then none else some (x / y)

/-- The buy-average computation with its division checked. -/
def avg_buy_price_g (df : List Record) (b : String) : Option ℚ :=
  if 0 < total_buy_shares df b then
    (divGuard (total_buy_amount df b) ((total_buy_shares df b : ℚ))).map (roundTo 2)
  else some 0

/-- The sell-average computation with its division checked. -/
def avg_sell_price_g (df : List Record) (b : String) : Option ℚ :=
  if 0 < total_sell_shares df b then
    (divGuard (total_sell_amount df b) ((total_sell_shares df b : ℚ))).map (roundTo 2)
  else some 0

/-- The whole per-broker computation of `df2calculate` with every `/` routed
through `divGuard`: it fails (`none`) exactly when some division in the body
would divide by zero. -/
def dictRow_g (df : List Record) (b : String) : Option AggRow := do
  let abp ← avg_buy_price_g df b
  let asp ← avg_sell_price_g df b
  let dtv := day_trade_volume df b
  let pl := if dtv ≠ 0 then (asp - abp) * 1000 else 0
  let ns := net_shares df b
  let nba ← if 0 < ns then (if abp ≠ 0 then divGuard ((ns : ℚ) * abp) 10000 else pure 0)
            else pure 0
  let nsa ← if 0 < ns then pure 0
            else (if asp ≠ 0 then divGuard ((|ns| : ℚ) * asp) 10000 else pure 0)
  let buyLots ← (divGuard ((total_buy_shares df b : ℚ)) 1000).map (roundTo 1)
  let sellLots ← (divGuard ((total_sell_shares df b : ℚ)) 1000).map (roundTo 1)
  let dtvLots ← (divGuard ((dtv : ℚ)) 1000).map (roundTo 1)
  let tbw ← (divGuard (total_buy_amount df b) 10000).map (roundTo 1)
  let tsw ← (divGuard (total_sell_amount df b) 10000).map (roundTo 1)
  let nbl ← if 0 < ns then (divGuard ((ns : ℚ)) 1000).map (roundTo 1) else pure 0
  let nsl ← if ns < 0 then (divGuard ((|ns| : ℚ)) 1000).map (roundTo 1) else pure 0
  let pnl ← divGuard (pl * (dtv : ℚ)) (10000 * 1000)
  pure ⟨b, buyLots, roundTo 1 abp, sellLots, roundTo 1 asp, dtvLots, tbw, tsw,
        nbl, nsl, qtrunc (roundTo 1 nba), qtrunc (roundTo 1 nsa), pnl⟩

/-- Example record set from §8 of the spec, broker A only: buy 1000 shares
at 10.0 and sell 500 shares at 12.0. -/
def exA : List Record := [⟨"A", 10, 1000, 0⟩, ⟨"A", 12, 0, 500⟩]

/-- Example record set: one broker buying 1000 shares at 10.0. -/
def exW : List Record := [⟨"A", 10, 1000, 0⟩]

/-- Example record set whose weighted mean buy price 5/3 is not expressible
with two decimal places. -/
def exB : List Record := [⟨"A", 1, 1, 0⟩, ⟨"A", 2, 2, 0⟩]

/-- Example raw rows: a parsable price with an unparsable buy volume on the
left, an unparsable price on the right. -/
def exRaw : List RawRow := [⟨⟨"A", some 10, none, some 0⟩, ⟨"B", none, some 5, some 5⟩⟩]

theorem roundHalfEven_zero : roundHalfEven 0 = 0 := by
  simp [roundHalfEven]

theorem roundTo_zero (n : ℕ) : roundTo n 0 = 0 := by
  simp [roundTo, roundHalfEven_zero]

theorem qtrunc_zero : qtrunc 0 = 0 := by
  simp [qtrunc]

theorem total_buy_shares_nonneg (df : List Record) (b : String) :
    0 ≤ total_buy_shares df b := by
  unfold total_buy_shares
  apply List.sum_nonneg
  intro x hx
  obtain ⟨r, hr, rfl⟩ := List.mem_map.mp hx
  have hpos := List.of_mem_filter hr
  simp only [decide_eq_true_eq] at hpos
  exact le_of_lt hpos

theorem total_sell_shares_nonneg (df : List Record) (b : String) :
    0 ≤ total_sell_shares df b := by
  unfold total_sell_shares
  apply List.sum_nonneg
  intro x hx
  obtain ⟨r, hr, rfl⟩ := List.mem_map.mp hx
  have hpos := List.of_mem_filter hr
  simp only [decide_eq_true_eq] at hpos
  exact le_of_lt hpos

theorem day_trade_volume_nonneg (df : List Record) (b : String) :
    0 ≤ day_trade_volume df b :=
  le_min (total_buy_shares_nonneg df b) (total_sell_shares_nonneg df b)

theorem avg_buy_price_eq (df : List Record) (b : String) :
    avg_buy_price df b = roundTo 2 (spec_avg_buy_price df b) := by
  unfold avg_buy_price spec_avg_buy_price total_buy_amount
  by_cases h : 0 < total_buy_shares df b
  · simp only [if_pos h]
  · simp only [if_neg h, roundTo_zero]

theorem avg_sell_price_eq (df : List Record) (b : String) :
    avg_sell_price df b = roundTo 2 (spec_avg_sell_price df b) := by
  unfold avg_sell_price spec_avg_sell_price total_sell_amount
  by_cases h : 0 < total_sell_shares df b
  · simp only [if_pos h]
  · simp only [if_neg h, roundTo_zero]

/-- C5: for every broker, `total_buy_shares ≥ 0`, `total_sell_shares ≥ 0`,
and `day_trade_volume = min(total_buy_shares, total_sell_shares)`. -/
theorem C5_totals_and_day_trade_volume (df : List Record) (b : String) :
    0 ≤ total_buy_shares df b ∧ 0 ≤ total_sell_shares df b ∧
      day_trade_volume df b = min (total_buy_shares df b) (total_sell_shares df b) :=
  ⟨total_buy_shares_nonneg df b, total_sell_shares_nonneg df b, rfl⟩

/-- C2: for every broker, `day_trade_pnl` equals
`(avg_sell_price − avg_buy_price) × 1000 × day_trade_volume / (10000 × 1000)`
when `day_trade_volume > 0` and 0 otherwise, and this expression equals
`(avg_sell_price − avg_buy_price) × day_trade_volume / 10000`. -/
theorem C2_day_trade_pnl_formula (df : List Record) (b : String) :
    day_trade_pnl df b =
      (if 0 < day_trade_volume df b then
        (avg_sell_price df b - avg_buy_price df b) * 1000 * (day_trade_volume df b : ℚ)
          / (10000 * 1000)
      else 0)
    ∧ day_trade_pnl df b =
        (avg_sell_price df b - avg_buy_price df b) * (day_trade_volume df b : ℚ) / 10000 := by
  rcases lt_or_eq_of_le (day_trade_volume_nonneg df b) with h | h
  · constructor
    · unfold day_trade_pnl profit_loss
      rw [if_pos h.ne', if_pos h]
    · unfold day_trade_pnl profit_loss
      rw [if_pos h.ne']
      field_simp
      ring
  · constructor
    · unfold day_trade_pnl profit_loss
      rw [← h]
      norm_num
    · unfold day_trade_pnl profit_loss
      rw [← h]
      norm_num

/-- C3 counterexample: for two buy records at prices 1 and 2 with 1 and 2
shares, the weighted mean is 5/3, but `avg_buy_price` is `round(5/3, 2)` =
1.67, so the average is not the exact quotient the claim states. -/
theorem C3_counterexample : avg_buy_price exB "A" ≠ spec_avg_buy_price exB "A" := by
  with_unfolding_all decide

/-- C3 amended: `avg_buy_price` is the exact share-weighted mean rounded to
two decimal places (0 when there is no buy volume), and symmetrically for
`avg_sell_price`. -/
theorem C3_avg_price_is_rounded_mean (df : List Record) (b : String) :
    avg_buy_price df b = roundTo 2 (spec_avg_buy_price df b)
    ∧ avg_sell_price df b = roundTo 2 (spec_avg_sell_price df b) :=
  ⟨avg_buy_price_eq df b, avg_sell_price_eq df b⟩

/-- C10: the averages are rounded to two decimal places immediately, and the
downstream monetary fields (`day_trade_pnl`, `net_buy_amount`,
`net_sell_amount`) are computed from the rounded averages
`roundTo 2 (spec_avg_…)`, not from the exact weighted means. -/
theorem C10_downstream_uses_rounded_averages (df : List Record) (b : String) :
    day_trade_pnl df b =
      (if day_trade_volume df b ≠ 0 then
        (roundTo 2 (spec_avg_sell_price df b) - roundTo 2 (spec_avg_buy_price df b)) * 1000
      else 0) * (day_trade_volume df b : ℚ) / (10000 * 1000)
    ∧ net_buy_amount df b =
      (if 0 < net_shares df b then
        if roundTo 2 (spec_avg_buy_price df b) ≠ 0 then
          (net_shares df b : ℚ) * roundTo 2 (spec_avg_buy_price df b) / 10000
        else 0
      else 0)
    ∧ net_sell_amount df b =
      (if 0 < net_shares df b then 0
      else
        if roundTo 2 (spec_avg_sell_price df b) ≠ 0 then
          (|net_shares df b| : ℚ) * roundTo 2 (spec_avg_sell_price df b) / 10000
        else 0) := by
  rw [← avg_buy_price_eq, ← avg_sell_price_eq]
  exact ⟨rfl, rfl, rfl⟩

/-- Example record set with a flat broker: buys and sells 100 shares. -/
def exF : List Record := [⟨"F", 5, 100, 100⟩]

theorem net_value_cases (df : List Record) (b : String) :
    (qtrunc (roundTo 1 (net_buy_amount df b)) = 0 ∨
      qtrunc (roundTo 1 (net_sell_amount df b)) = 0)
    ∧ (net_shares df b = 0 →
        qtrunc (roundTo 1 (net_buy_amount df b)) = 0 ∧
          qtrunc (roundTo 1 (net_sell_amount df b)) = 0) := by
  by_cases h : 0 < net_shares df b
  · constructor
    · right
      simp [net_sell_amount, if_pos h, roundTo_zero, qtrunc_zero]
    · intro h0
      rw [h0] at h
      exact absurd h (by norm_num)
  · constructor
    · left
      simp [net_buy_amount, if_neg h, roundTo_zero, qtrunc_zero]
    · intro h0
      constructor
      · simp [net_buy_amount, if_neg h, roundTo_zero, qtrunc_zero]
      · simp [net_sell_amount, if_neg h, h0, roundTo_zero, qtrunc_zero]

/-- C1 counterexample: the spec's own §8 example (broker A buys 1000 shares
at 10.0 and sells 500 at 12.0) has `net_shares = 500 ≠ 0`, yet both output
fields 淨買額(萬) and 淨賣額(萬) are 0, because the net buy value 0.5 is
truncated to the integer 0 by `int(round(0.5, 1))`. -/
theorem C1_counterexample :
    net_shares exA "A" ≠ 0
    ∧ (df2calculate exA).rows.map AggRow.net_buy_value = [0]
    ∧ (df2calculate exA).rows.map AggRow.net_sell_value = [0] := by
  with_unfolding_all decide

/-- C1 amended: in every row produced by `df2calculate`, at most one of the
output fields 淨買額(萬)/淨賣額(萬) is non-zero, and when `net_shares = 0`
both are zero; a non-zero net position can still show 0 in both fields when
its rounded monetary value truncates to the integer 0. -/
theorem C1_net_values_at_most_one_nonzero (df : List Record) (r : AggRow)
    (hr : r ∈ (df2calculate df).rows) :
    (r.net_buy_value = 0 ∨ r.net_sell_value = 0)
    ∧ (net_shares df r.broker = 0 → r.net_buy_value = 0 ∧ r.net_sell_value = 0) := by
  simp only [df2calculate, List.mem_map] at hr
  obtain ⟨b, hb, rfl⟩ := hr
  exact net_value_cases df b

/-- C1 witness: the amended statement evaluated on `exW` (a strict net
buyer) and on `exF` (a flat broker). -/
theorem C1_witness :
    ((roundRow1 (dictRow exW "A")).net_buy_value = 0 ∨
      (roundRow1 (dictRow exW "A")).net_sell_value = 0)
    ∧ ((roundRow1 (dictRow exF "F")).net_buy_value = 0 ∧
        (roundRow1 (dictRow exF "F")).net_sell_value = 0) :=
  ⟨(C1_net_values_at_most_one_nonzero exW (roundRow1 (dictRow exW "A"))
      (by with_unfolding_all decide)).1,
   (C1_net_values_at_most_one_nonzero exF (roundRow1 (dictRow exF "F"))
      (by with_unfolding_all decide)).2 (by with_unfolding_all decide)⟩

theorem length_filterMap_cleanQuad (l : List RawQuad) :
    (l.filterMap cleanQuad).length = (l.filter (fun q => q.price.isSome)).length := by
  induction l with
  | nil => rfl
  | cons q l ih =>
    cases hq : q.price with
    | none => simp [List.filterMap_cons, List.filter_cons, cleanQuad, hq, ih]
    | some p => simp [List.filterMap_cons, List.filter_cons, cleanQuad, hq, ih]

/-- C4: `df2clean` keeps exactly the quadruples whose price parsed (the
length equation: one record per parsable-price quadruple, so an unparsable
price drops the record), and every quadruple with a parsable price — in
particular one with an unparsable volume, which is zero-filled by
`fillna(0)`, or with both volumes zero — yields a retained record. -/
theorem C4_price_drops_volume_zero_fills (rows : List RawRow) :
    (df2clean rows).length = ((rawQuads rows).filter (fun q => q.price.isSome)).length
    ∧ ∀ (b : String) (p : ℚ) (vb vs : Option ℤ),
        (⟨b, some p, vb, vs⟩ : RawQuad) ∈ rawQuads rows →
          (⟨b, p, vb.getD 0, vs.getD 0⟩ : Record) ∈ df2clean rows := by
  refine ⟨length_filterMap_cleanQuad _, ?_⟩
  intro b p vb vs hmem
  exact List.mem_filterMap.mpr ⟨_, hmem, rfl⟩

/-- C4 witness: on `exRaw`, the left quadruple (parsable price, unparsable
buy volume) survives as a record with buy volume 0, and the length equation
holds. -/
theorem C4_witness :
    (df2clean exRaw).length = ((rawQuads exRaw).filter (fun q => q.price.isSome)).length
    ∧ (⟨"A", 10, 0, 0⟩ : Record) ∈ df2clean exRaw :=
  ⟨(C4_price_drops_volume_zero_fills exRaw).1,
   (C4_price_drops_volume_zero_fills exRaw).2 "A" 10 none (some 0)
      (by with_unfolding_all decide)⟩

/-- Permuted copies of one record set, for the C8 witness. -/
def exP1 : List Record := [⟨"A", 10, 100, 0⟩, ⟨"A", 20, 300, 50⟩, ⟨"B", 7, 0, 10⟩]

def exP2 : List Record := [⟨"B", 7, 0, 10⟩, ⟨"A", 20, 300, 50⟩, ⟨"A", 10, 100, 0⟩]

/-- C8: permuting the normalized records leaves every broker's
`avg_buy_price` and `avg_sell_price` unchanged. -/
theorem C8_averages_permutation_invariant (df df2 : List Record)
    (h : df.Perm df2) (b : String) :
    avg_buy_price df b = avg_buy_price df2 b
    ∧ avg_sell_price df b = avg_sell_price df2 b := by
  have hb : (buy_data df b).Perm (buy_data df2 b) := by
    unfold buy_data broker_data
    exact (h.filter _).filter _
  have hs : (sell_data df b).Perm (sell_data df2 b) := by
    unfold sell_data broker_data
    exact (h.filter _).filter _
  have h1 : total_buy_shares df b = total_buy_shares df2 b :=
    (hb.map Record.buy).sum_eq
  have h2 : total_sell_shares df b = total_sell_shares df2 b :=
    (hs.map Record.sell).sum_eq
  have h3 : ((buy_data df b).map (fun r => r.price * (r.buy : ℚ))).sum =
      ((buy_data df2 b).map (fun r => r.price * (r.buy : ℚ))).sum :=
    (hb.map _).sum_eq
  have h4 : ((sell_data df b).map (fun r => r.price * (r.sell : ℚ))).sum =
      ((sell_data df2 b).map (fun r => r.price * (r.sell : ℚ))).sum :=
    (hs.map _).sum_eq
  constructor
  · unfold avg_buy_price total_buy_amount
    rw [h1, h3]
  · unfold avg_sell_price total_sell_amount
    rw [h2, h4]

/-- C8 witness: a concrete permutation of three records. -/
theorem C8_witness :
    avg_buy_price exP1 "A" = avg_buy_price exP2 "A"
    ∧ avg_sell_price exP1 "A" = avg_sell_price exP2 "A" :=
  C8_averages_permutation_invariant exP1 exP2 (by with_unfolding_all decide) "A"

theorem avg_buy_price_g_eq (df : List Record) (b : String) :
    avg_buy_price_g df b = some (avg_buy_price df b) := by
  unfold avg_buy_price_g avg_buy_price
  by_cases h : 0 < total_buy_shares df b
  · have hne : ((total_buy_shares df b : ℤ) : ℚ) ≠ 0 := Int.cast_ne_zero.mpr h.ne'
    simp [h, divGuard, hne]
  · simp [h]

theorem avg_sell_price_g_eq (df : List Record) (b : String) :
    avg_sell_price_g df b = some (avg_sell_price df b) := by
  unfold avg_sell_price_g avg_sell_price
  by_cases h : 0 < total_sell_shares df b
  · have hne : ((total_sell_shares df b : ℤ) : ℚ) ≠ 0 := Int.cast_ne_zero.mpr h.ne'
    simp [h, divGuard, hne]
  · simp [h]

theorem dictRow_g_eq (df : List Record) (b : String) :
    dictRow_g df b = some (dictRow df b) := by
  unfold dictRow_g dictRow
  rw [avg_buy_price_g_eq, avg_sell_price_g_eq]
  have c1 : (1000:ℚ) ≠ 0 := by norm_num
  have c2 : (10000:ℚ) ≠ 0 := by norm_num
  have c3 : (10000:ℚ) * 1000 ≠ 0 := by norm_num
  unfold net_buy_amount net_sell_amount day_trade_pnl profit_loss
  by_cases hns : 0 < net_shares df b
  · have hneg : ¬ net_shares df b < 0 := by omega
    by_cases hab : avg_buy_price df b = 0
    · simp [divGuard, c1, c2, c3, hns, hneg, hab]
    · simp [divGuard, c1, c2, c3, hns, hneg, hab]
  · by_cases hneg : net_shares df b < 0
    · by_cases has : avg_sell_price df b = 0
      · simp [divGuard, c1, c2, c3, hns, hneg, has]
      · simp [divGuard, c1, c2, c3, hns, hneg, has]
    · by_cases has : avg_sell_price df b = 0
      · simp [divGuard, c1, c2, c3, hns, hneg, has]
      · simp [divGuard, c1, c2, c3, hns, hneg, has]

/-- Example record set with a sell-only broker. -/
def exS : List Record := [⟨"B", 9, 0, 200⟩]

/-- C7: the per-broker computation with every division routed through
`divGuard` succeeds and agrees with `dictRow` — `df2calculate` never divides
by a zero denominator, so no field is NaN or undefined — and a broker with
zero volume on one side gets 0-valued derived fields for that side. -/
theorem C7_no_zero_division_and_zero_sides (df : List Record) (b : String) :
    dictRow_g df b = some (dictRow df b)
    ∧ (total_buy_shares df b = 0 →
        avg_buy_price df b = 0 ∧ total_buy_amount df b = 0 ∧ net_buy_amount df b = 0
          ∧ day_trade_volume df b = 0 ∧ day_trade_pnl df b = 0)
    ∧ (total_sell_shares df b = 0 →
        avg_sell_price df b = 0 ∧ total_sell_amount df b = 0 ∧ net_sell_amount df b = 0
          ∧ day_trade_volume df b = 0 ∧ day_trade_pnl df b = 0) := by
  refine ⟨dictRow_g_eq df b, ?_, ?_⟩
  · intro h0
    have hts := total_sell_shares_nonneg df b
    have h1 : ¬ 0 < total_buy_shares df b := by omega
    have hdtv : day_trade_volume df b = 0 := by
      unfold day_trade_volume
      omega
    have hns : ¬ 0 < net_shares df b := by
      unfold net_shares
      omega
    exact ⟨by simp [avg_buy_price, h1], by simp [total_buy_amount, h1],
           by simp [net_buy_amount, hns], hdtv, by simp [day_trade_pnl, hdtv]⟩
  · intro h0
    have htb := total_buy_shares_nonneg df b
    have h1 : ¬ 0 < total_sell_shares df b := by omega
    have hdtv : day_trade_volume df b = 0 := by
      unfold day_trade_volume
      omega
    have havg : avg_sell_price df b = 0 := by simp [avg_sell_price, h1]
    exact ⟨havg, by simp [total_sell_amount, h1], by simp [net_sell_amount, havg],
           hdtv, by simp [day_trade_pnl, hdtv]⟩

/-- C7 witness: the zero-side conclusions evaluated on a sell-only broker
(no buy volume) and a buy-only broker (no sell volume). -/
theorem C7_witness :
    (avg_buy_price exS "B" = 0 ∧ total_buy_amount exS "B" = 0 ∧ net_buy_amount exS "B" = 0
      ∧ day_trade_volume exS "B" = 0 ∧ day_trade_pnl exS "B" = 0)
    ∧ (avg_sell_price exW "A" = 0 ∧ total_sell_amount exW "A" = 0 ∧ net_sell_amount exW "A" = 0
      ∧ day_trade_volume exW "A" = 0 ∧ day_trade_pnl exW "A" = 0) :=
  ⟨(C7_no_zero_division_and_zero_sides exS "B").2.1 (by with_unfolding_all decide),
   (C7_no_zero_division_and_zero_sides exW "A").2.2 (by with_unfolding_all decide)⟩

instance exceptDecEq {ε α : Type} [DecidableEq ε] [DecidableEq α] :
    DecidableEq (Except ε α) := fun a b =>
  match a, b with
  | Except.ok x, Except.ok y =>
      if h : x = y then isTrue (h ▸ rfl) else isFalse (fun hc => h (Except.ok.inj hc))
  | Except.error x, Except.error y =>
      if h : x = y then isTrue (h ▸ rfl) else isFalse (fun hc => h (Except.error.inj hc))
  | Except.ok _, Except.error _ => isFalse (fun hc => Except.noConfusion hc)
  | Except.error _, Except.ok _ => isFalse (fun hc => Except.noConfusion hc)

theorem addRanks_length {β : Type} (l : List β) : (addRanks l).length = l.length := by
  simp [addRanks]

theorem addRanks_map_fst {β : Type} (l : List β) :
    (addRanks l).map Prod.fst = List.range' 1 l.length := by
  apply List.map_fst_zip
  simp

theorem addRanks_pairwise {β : Type} {R : β → β → Prop} {l : List β}
    (h : l.Pairwise R) : (addRanks l).Pairwise (fun a b => R a.2 b.2) := by
  have hsnd : (addRanks l).map Prod.snd = l := by
    apply List.map_snd_zip
    simp
  rw [← hsnd] at h
  exact List.pairwise_map.mp h

theorem rankedRows_spec {β : Type} (key : AggRow → ℚ) (proj : AggRow → β) (kf : β → ℚ)
    (hk : ∀ r, kf (proj r) = key r) (rows : List AggRow) (n : ℕ) :
    (rankedRows key proj rows n).length = min n rows.length
    ∧ (rankedRows key proj rows n).map Prod.fst = List.range' 1 (min n rows.length)
    ∧ (rankedRows key proj rows n).Pairwise (fun a b => kf b.2 ≤ kf a.2) := by
  haveI ht : IsTotal AggRow (fun a b => key b ≤ key a) :=
    ⟨fun a b => le_total (key b) (key a)⟩
  haveI htr : IsTrans AggRow (fun a b => key b ≤ key a) :=
    ⟨fun a b c hab hbc => le_trans hbc hab⟩
  have hsorted : (List.insertionSort (fun a b => key b ≤ key a) rows).Pairwise
      (fun a b => key b ≤ key a) :=
    List.sorted_insertionSort _ rows
  have htake : ((List.insertionSort (fun a b => key b ≤ key a) rows).take n).Pairwise
      (fun a b => key b ≤ key a) :=
    List.Pairwise.sublist (List.take_sublist n _) hsorted
  have hmap : (((List.insertionSort (fun a b => key b ≤ key a) rows).take n).map
      proj).Pairwise (fun a b => kf b ≤ kf a) := by
    apply List.pairwise_map.mpr
    apply htake.imp
    intro a b hab
    rw [hk, hk]
    exact hab
  have hlen : (((List.insertionSort (fun a b => key b ≤ key a) rows).take n).map
      proj).length = min n rows.length := by
    simp [List.length_insertionSort]
  unfold rankedRows
  refine ⟨?_, ?_, addRanks_pairwise hmap⟩
  · rw [addRanks_length, hlen]
  · rw [addRanks_map_fst, hlen]

theorem top20_buy_ok {t : AggTable} {n : ℕ} {v : List (ℕ × BuyRow)}
    (h : top20_buy t n = Except.ok v) :
    v = rankedRows AggRow.net_buy_lots projBuy t.rows n := by
  unfold top20_buy at h
  split at h
  · split at h
    · exact (Except.ok.inj h).symm
    · exact absurd h (by simp)
  · exact absurd h (by simp)

theorem top20_sell_ok {t : AggTable} {n : ℕ} {v : List (ℕ × SellRow)}
    (h : top20_sell t n = Except.ok v) :
    v = rankedRows AggRow.net_sell_lots projSell t.rows n := by
  unfold top20_sell at h
  split at h
  · split at h
    · exact (Except.ok.inj h).symm
    · exact absurd h (by simp)
  · exact absurd h (by simp)

theorem top20_intraday_ok {t : AggTable} {n : ℕ} {v : List (ℕ × DayRow)}
    (h : top20_intraday t n = Except.ok v) :
    v = rankedRows AggRow.day_trade_lots projDay t.rows n := by
  unfold top20_intraday at h
  split at h
  · split at h
    · exact (Except.ok.inj h).symm
    · exact absurd h (by simp)
  · exact absurd h (by simp)

theorem rows_length_eq_numBrokers (df : List Record) :
    (df2calculate df).rows.length = numBrokers df := by
  simp [df2calculate, numBrokers]

/-- C6: every ranked view the three `top20_*` functions return on an
aggregate table of `df2calculate` has length `min n (number of brokers)`, is
sorted descending by its key column (淨買入(張) / 淨賣出(張) / 當沖量(張)),
and carries the 1-based rank indices 1, 2, …. -/
theorem C6_ranked_views_shape (df : List Record) (n : ℕ)
    (vb : List (ℕ × BuyRow)) (vs : List (ℕ × SellRow)) (vi : List (ℕ × DayRow))
    (hb : top20_buy (df2calculate df) n = Except.ok vb)
    (hs : top20_sell (df2calculate df) n = Except.ok vs)
    (hi : top20_intraday (df2calculate df) n = Except.ok vi) :
    (vb.length = min n (numBrokers df)
      ∧ vb.map Prod.fst = List.range' 1 (min n (numBrokers df))
      ∧ vb.Pairwise (fun a b => b.2.net_buy_lots ≤ a.2.net_buy_lots))
    ∧ (vs.length = min n (numBrokers df)
      ∧ vs.map Prod.fst = List.range' 1 (min n (numBrokers df))
      ∧ vs.Pairwise (fun a b => b.2.net_sell_lots ≤ a.2.net_sell_lots))
    ∧ (vi.length = min n (numBrokers df)
      ∧ vi.map Prod.fst = List.range' 1 (min n (numBrokers df))
      ∧ vi.Pairwise (fun a b => b.2.day_trade_lots ≤ a.2.day_trade_lots)) := by
  rw [top20_buy_ok hb, top20_sell_ok hs, top20_intraday_ok hi]
  rw [← rows_length_eq_numBrokers df]
  exact ⟨rankedRows_spec AggRow.net_buy_lots projBuy BuyRow.net_buy_lots
           (fun r => rfl) (df2calculate df).rows n,
         rankedRows_spec AggRow.net_sell_lots projSell SellRow.net_sell_lots
           (fun r => rfl) (df2calculate df).rows n,
         rankedRows_spec AggRow.day_trade_lots projDay DayRow.day_trade_lots
           (fun r => rfl) (df2calculate df).rows n⟩

/-- C6 witness: the three views computed from `exW` with `n = 20`. -/
theorem C6_witness :
    (([(1, (⟨"A", 1, 10, 0, 0, 1, 1⟩ : BuyRow))]).length = min 20 (numBrokers exW)
      ∧ ([(1, (⟨"A", 1, 10, 0, 0, 1, 1⟩ : BuyRow))]).map Prod.fst
          = List.range' 1 (min 20 (numBrokers exW))
      ∧ ([(1, (⟨"A", 1, 10, 0, 0, 1, 1⟩ : BuyRow))]).Pairwise
          (fun a b => b.2.net_buy_lots ≤ a.2.net_buy_lots))
    ∧ (([(1, (⟨"A", 1, 10, 0, 0, 0, 0⟩ : SellRow))]).length = min 20 (numBrokers exW)
      ∧ ([(1, (⟨"A", 1, 10, 0, 0, 0, 0⟩ : SellRow))]).map Prod.fst
          = List.range' 1 (min 20 (numBrokers exW))
      ∧ ([(1, (⟨"A", 1, 10, 0, 0, 0, 0⟩ : SellRow))]).Pairwise
          (fun a b => b.2.net_sell_lots ≤ a.2.net_sell_lots))
    ∧ (([(1, (⟨"A", 1, 10, 0, 0, 0, 0⟩ : DayRow))]).length = min 20 (numBrokers exW)
      ∧ ([(1, (⟨"A", 1, 10, 0, 0, 0, 0⟩ : DayRow))]).map Prod.fst
          = List.range' 1 (min 20 (numBrokers exW))
      ∧ ([(1, (⟨"A", 1, 10, 0, 0, 0, 0⟩ : DayRow))]).Pairwise
          (fun a b => b.2.day_trade_lots ≤ a.2.day_trade_lots)) :=
  C6_ranked_views_shape exW 20 _ _ _
    (by with_unfolding_all decide)
    (by with_unfolding_all decide)
    (by with_unfolding_all decide)

/-- C9 counterexample: the aggregate table built from an empty record set
has no columns (`pd.DataFrame.from_dict({})`), so `top20_buy` fails with a
`KeyError` instead of returning an empty ranked view. -/
theorem C9_counterexample :
    top20_buy (df2calculate []) 20 = Except.error "KeyError" := rfl

/-- C9 amended: `csv2df` returns an absent result (`None`) whenever the raw
table has at most 2 rows (too few to contain the header row, which would
raise `IndexError` inside the guarded block); a 3-row table still yields a
table with an empty data region, not `None`.  An empty aggregate set does
NOT yield empty ranked views: the zero-broker table has no columns, so all
three views fail with a `KeyError`; only a zero-row table that retains the
aggregate columns yields empty ranked views. -/
theorem C9_short_input_none_and_empty_rankings :
    (∀ rows : List (List String), rows.length ≤ 2 → csv2df rows = none)
    ∧ (∀ r0 r1 r2 : List String, csv2df [r0, r1, r2] = some ⟨r2, []⟩)
    ∧ (∀ n : ℕ, top20_buy (df2calculate []) n = Except.error "KeyError"
        ∧ top20_sell (df2calculate []) n = Except.error "KeyError"
        ∧ top20_intraday (df2calculate []) n = Except.error "KeyError")
    ∧ (∀ n : ℕ, top20_buy ⟨aggColumns, []⟩ n = Except.ok []
        ∧ top20_sell ⟨aggColumns, []⟩ n = Except.ok []
        ∧ top20_intraday ⟨aggColumns, []⟩ n = Except.ok []) := by
  refine ⟨?_, ?_, ?_, ?_⟩
  · intro rows h
    unfold csv2df
    rw [List.get?_eq_none.mpr h]
    simp
  · intro r0 r1 r2
    rfl
  · intro n
    exact ⟨rfl, rfl, rfl⟩
  · intro n
    refine ⟨?_, ?_, ?_⟩
    · show Except.ok (rankedRows AggRow.net_buy_lots projBuy [] n) = Except.ok []
      simp [rankedRows, addRanks]
    · show Except.ok (rankedRows AggRow.net_sell_lots projSell [] n) = Except.ok []
      simp [rankedRows, addRanks]
    · show Except.ok (rankedRows AggRow.day_trade_lots projDay [] n) = Except.ok []
      simp [rankedRows, addRanks]

/-- C9 witness: the amended statement evaluated on a one-row raw table, a
three-row raw table, and the two kinds of empty aggregate table, at n = 5. -/
theorem C9_witness :
    csv2df [["x"]] = none
    ∧ csv2df [[], [], ["h"]] = some ⟨["h"], []⟩
    ∧ top20_buy (df2calculate []) 5 = Except.error "KeyError"
    ∧ top20_buy ⟨aggColumns, []⟩ 5 = Except.ok [] :=
  ⟨C9_short_input_none_and_empty_rankings.1 [["x"]] (by decide),
   C9_short_input_none_and_empty_rankings.2.1 [] [] ["h"],
   (C9_short_input_none_and_empty_rankings.2.2.1 5).1,
   (C9_short_input_none_and_empty_rankings.2.2.2 5).1⟩

end TradeAnalyzer
